import Mathlib

/-!
Shallow embedding of `src/hooks/useRoom.ts`: a client-side session
lifecycle controller for a LiveKit room.  The hook owns the chain
credential fetch -> `room.connect` -> bounded connected-wait ->
microphone enablement, an `aborted` ref set at effect cleanup, an
`isSessionActive` boolean, and three room event handlers.

The asynchronous behaviour is modelled as a small-step event-loop
semantics: each continuation of the startup chain runs atomically when
its triggering event (promise resolution, room event, timer) is
delivered by the environment.  Chains in flight are tracked with a
phase; `setTimeout` timers carry an absolute deadline against a
logical clock `now`.
-/

namespace UseRoom

/-- Connection state of the livekit `Room` object (`room.state`). -/
inductive RoomState
  | disconnected
  | connecting
  | connected
  | reconnecting
  deriving DecidableEq, Repr

/-- A JavaScript `Error` object: `name` and `message` fields. -/
structure ErrObj where
  name : String
  message : String
  deriving DecidableEq, Repr

/-- The connection details returned by the credential endpoint. -/
structure ConnectionDetails where
  serverUrl : String
  roomName : String
  participantToken : String
  deriving DecidableEq, Repr

/-- An alert forwarded to `toastAlert` (the Notification Sink). -/
structure Toast where
  title : String
  description : String
  deriving DecidableEq, Repr

/-- The fields of `AppConfig` that `useRoom` reads. -/
structure AppConfig where
  agentName : Option String
  sandboxId : Option String
  isPreConnectBufferEnabled : Bool
  deriving DecidableEq, Repr

/-- Phase of one in-flight startup chain launched by `startSession`:
awaiting the credential fetch, awaiting `room.connect`, waiting inside
the connected-wait promise (listener registered), or awaiting
`setMicrophoneEnabled`. -/
inductive Phase
  | fetching
  | connecting
  | waiting
  | enabling
  deriving DecidableEq, Repr

/-- An HTTP response from the credential endpoint, as the `fetch`
continuation in `tokenSource` sees it: either a successful 2xx
response whose JSON body parsed into connection details, or a non-2xx
response with status and body text. -/
inductive HttpResp
  | success (details : ConnectionDetails)
  | failure (status : Nat) (body : String)
  deriving DecidableEq, Repr

/-- Substring test on character lists, prefix at the head. -/
def hasPre : List Char → List Char → Bool
  | [], _ => true
  | _ :: _, [] => false
  | p :: ps, c :: cs => (p = c) && hasPre ps cs

/-- Substring test on character lists, anywhere. -/
def hasSub (p : List Char) : List Char → Bool
  | [] => hasPre p []
  | c :: cs => hasPre p (c :: cs) || hasSub p cs

/-- JavaScript `String.prototype.includes`. -/
def strIncludes (s pat : String) : Bool :=
  hasSub pat.toList s.toList

/-- Whole observable state of one `useRoom` controller instance plus
the bookkeeping the event-loop model needs: the room's connection
state, the `isSessionActive` React state, the `aborted` ref, whether
the effect's event handlers are still subscribed, the logical clock,
in-flight chains, registered one-shot `Connected` listeners, armed
timers (chain id, absolute deadline), call counters for the external
operations, the microphone-enable calls with their `preConnectBuffer`
flag, and the toasts sent to the Notification Sink. -/
structure Sys where
  roomState : RoomState
  isSessionActive : Bool
  aborted : Bool
  handlersOn : Bool
  now : Nat
  nextChainId : Nat
  chains : List (Nat × Phase)
  connectedListeners : List Nat
  timers : List (Nat × Nat)
  fetchCalls : Nat
  connectCalls : Nat
  micCalls : List Bool
  disconnectCalls : Nat
  toasts : List Toast
  deriving DecidableEq, Repr

/-- The initial state of a freshly mounted `useRoom` instance. -/
def initSys : Sys :=
  { roomState := RoomState.disconnected
    isSessionActive := false
    aborted := false
    handlersOn := true
    now := 0
    nextChainId := 0
    chains := []
    connectedListeners := []
    timers := []
    fetchCalls := 0
    connectCalls := 0
    micCalls := []
    disconnectCalls := 0
    toasts := [] }

/-- Remove the chain with the given id. -/
def dropChain (cs : List (Nat × Phase)) (cid : Nat) : List (Nat × Phase) :=
  cs.filter (fun p => ! (p.1 == cid))

/-- Remove the timer belonging to the given chain. -/
def dropTimer (ts : List (Nat × Nat)) (cid : Nat) : List (Nat × Nat) :=
  ts.filter (fun p => ! (p.1 == cid))

/-- Remove the one-shot `Connected` listener of the given chain
(`room.off(RoomEvent.Connected, onConnected)`). -/
def dropListener (ls : List Nat) (cid : Nat) : List Nat :=
  ls.filter (fun c => ! (c == cid))

/-- Update the phase of the chain with the given id. -/
def setPhase (cs : List (Nat × Phase)) (cid : Nat) (ph : Phase) : List (Nat × Phase) :=
  cs.map (fun p => if p.1 == cid then (p.1, ph) else p)

/-- The custom token source body (`useRoom.ts` lines 59-94): a non-ok
response produces `new Error('Failed to get connection details: ' +
errorText)`; a successful response yields the parsed details. -/
def tokenSourceFetch : HttpResp → Except ErrObj ConnectionDetails
  | HttpResp.success d => Except.ok d
  | HttpResp.failure _ body =>
      Except.error
        { name := "Error"
          message := "Failed to get connection details: " ++ body }

/-- The rewritten guidance message used for timeout-flavored errors
(`useRoom.ts` line 167). -/
def timeoutGuidance : String :=
  "Connection timeout. Please check your LiveKit server configuration and environment variables."

/-- The description text the catch handler displays (`useRoom.ts`
lines 164-168): `error.message || 'Unknown error'`, rewritten to the
guidance message when it includes "timeout" or "signal". -/
def displayedErrorMessage (e : ErrObj) : String :=
  let m := if e.message = "" then "Unknown error" else e.message
  if strIncludes m "timeout" || strIncludes m "signal" then timeoutGuidance else m

/-- The catch handler of the startup chain (`useRoom.ts` lines
145-174): return immediately when `aborted`; otherwise disconnect the
room if it is not already disconnected, set `isSessionActive` false,
and forward one toast built from the error. -/
def handleStartError (s : Sys) (e : ErrObj) : Sys :=
  if s.aborted then s
  else
    let s1 :=
      if s.roomState = RoomState.disconnected then s
      else { s with roomState := RoomState.disconnected
                    disconnectCalls := s.disconnectCalls + 1 }
    let s2 := { s1 with isSessionActive := false }
    { s2 with toasts := s2.toasts ++
        [{ title := "There was an error connecting to the agent"
           description := e.name ++ ": " ++ displayedErrorMessage e }] }

/-- The synchronous body of `startSession` (`useRoom.ts` lines
98-176): set `isSessionActive` true; when `room.state` is
`disconnected`, issue a credential fetch and launch a new startup
chain; otherwise do nothing more. -/
def startSession (s : Sys) : Sys :=
  let s1 := { s with isSessionActive := true }
  if s.roomState = RoomState.disconnected then
    { s1 with fetchCalls := s1.fetchCalls + 1
              chains := s1.chains ++ [(s1.nextChainId, Phase.fetching)]
              nextChainId := s1.nextChainId + 1 }
  else s1

/-- `endSession` (`useRoom.ts` lines 178-180): set `isSessionActive`
false and nothing else. -/
def endSession (s : Sys) : Sys :=
  { s with isSessionActive := false }

/-- The `Disconnected` room-event handler (`useRoom.ts` lines 20-22). -/
def onDisconnected (s : Sys) : Sys :=
  { s with isSessionActive := false }

/-- The `ConnectionStateChanged` handler (`useRoom.ts` lines 33-41):
only a transition into `disconnected` clears `isSessionActive`;
`reconnecting` is matched by the outer condition but deliberately
changes nothing. -/
def onConnectionStateChanged (st : RoomState) (s : Sys) : Sys :=
  if st = RoomState.disconnected ∨ st = RoomState.reconnecting then
    if st = RoomState.disconnected then { s with isSessionActive := false } else s
  else s

/-- Effect cleanup of the second effect (`useRoom.ts` lines 50-55):
set the `aborted` ref and call `room.disconnect()`; the first effect's
cleanup has already removed the three subscribed handlers. -/
def dispose (s : Sys) : Sys :=
  { s with aborted := true
           handlersOn := false
           roomState := RoomState.disconnected
           disconnectCalls := s.disconnectCalls + 1 }

/-- Begin `setMicrophoneEnabled(true, undefined, { preConnectBuffer:
isPreConnectBufferEnabled })` for the given chain (`useRoom.ts` lines
135-137). -/
def enableMic (cfg : AppConfig) (s : Sys) (cid : Nat) : Sys :=
  { s with chains := setPhase s.chains cid Phase.enabling
           micCalls := s.micCalls ++ [cfg.isPreConnectBufferEnabled] }

/-- Fire the one-shot `Connected` listeners in registration order
(`useRoom.ts` lines 120-124): each removes itself and resolves its
chain's wait promise, whose continuation enables the microphone; a
listener whose promise was already resolved (its chain left `waiting`)
is a no-op. -/
def fireListeners (cfg : AppConfig) (s : Sys) (fired : List Nat) : Sys :=
  fired.foldl
    (fun st cid =>
      if st.chains.lookup cid = some Phase.waiting then enableMic cfg st cid else st)
    s

/-- Events delivered by the environment to a controller instance: the
caller's entry points, effect cleanup, promise resolutions and
rejections of the startup chain's suspension points, room events, a
timer firing, and the passage of time. -/
inductive Ev
  | callStart
  | callStop
  | dispose
  | advance (k : Nat)
  | fetchResolve (cid : Nat) (resp : HttpResp)
  | connectResolve (cid : Nat)
  | connectReject (cid : Nat) (e : ErrObj)
  | roomConnected
  | timerFire (cid : Nat)
  | micResolve (cid : Nat)
  | micReject (cid : Nat) (e : ErrObj)
  | roomDisconnected
  | connStateChanged (st : RoomState)
  deriving DecidableEq, Repr

/-- One event-loop step.  `none` means the event is not enabled in the
given state (no such pending continuation, or the timer's deadline has
not been reached).  Each enabled event runs the corresponding source
continuation atomically:
* `callStart` / `callStop`: the caller invokes `startSession` /
  `endSession`.
* `dispose`: the effect cleanups run (handlers unsubscribed, `aborted`
  set, `room.disconnect()`).
* `advance`: the clock moves forward.
* `fetchResolve`: the credential fetch settles; on success the `.then`
  at line 107 issues `room.connect` (no abort check in the source); on
  failure the catch handler runs.
* `connectResolve`: `room.connect` fulfills; the `.then` at line 114
  proceeds immediately when `room.state` is already `connected`,
  otherwise registers the one-shot `Connected` listener and a 5000 ms
  `setTimeout`.
* `connectReject`: `room.connect` rejects; the catch handler runs.
* `roomConnected`: the room reaches `connected` and emits
  `RoomEvent.Connected`; all registered one-shot listeners fire.
* `timerFire`: an armed timer whose deadline has passed fires; its
  callback removes the chain's `Connected` listener and resolves the
  wait (a no-op when the wait already resolved).
* `micResolve` / `micReject`: `setMicrophoneEnabled` settles; a
  rejection is rethrown into the catch handler.
* `roomDisconnected` / `connStateChanged`: the room emits the event;
  the subscribed handler runs only while the effect is mounted. -/
def step (cfg : AppConfig) (s : Sys) : Ev → Option Sys
  | Ev.callStart => some (startSession s)
  | Ev.callStop => some (endSession s)
  | Ev.dispose => some (dispose s)
  | Ev.advance k => some { s with now := s.now + k }
  | Ev.fetchResolve cid resp =>
      if s.chains.lookup cid = some Phase.fetching then
        match tokenSourceFetch resp with
        | Except.ok _ =>
            some { s with chains := setPhase s.chains cid Phase.connecting
                          connectCalls := s.connectCalls + 1
                          roomState := RoomState.connecting }
        | Except.error e =>
            let s1 := handleStartError s e
            some { s1 with chains := dropChain s1.chains cid }
      else none
  | Ev.connectResolve cid =>
      if s.chains.lookup cid = some Phase.connecting then
        if s.roomState = RoomState.connected then
          some (enableMic cfg s cid)
        else
          some { s with chains := setPhase s.chains cid Phase.waiting
                        connectedListeners := s.connectedListeners ++ [cid]
                        timers := s.timers ++ [(cid, s.now + 5000)] }
      else none
  | Ev.connectReject cid e =>
      if s.chains.lookup cid = some Phase.connecting then
        let s1 := handleStartError s e
        some { s1 with chains := dropChain s1.chains cid }
      else none
  | Ev.roomConnected =>
      some (fireListeners cfg
        { s with roomState := RoomState.connected, connectedListeners := [] }
        s.connectedListeners)
  | Ev.timerFire cid =>
      match s.timers.lookup cid with
      | some d =>
          if d ≤ s.now then
            let s1 := { s with timers := dropTimer s.timers cid
                               connectedListeners := dropListener s.connectedListeners cid }
            if s1.chains.lookup cid = some Phase.waiting then
              some (enableMic cfg s1 cid)
            else some s1
          else none
      | none => none
  | Ev.micResolve cid =>
      if s.chains.lookup cid = some Phase.enabling then
        some { s with chains := dropChain s.chains cid }
      else none
  | Ev.micReject cid e =>
      if s.chains.lookup cid = some Phase.enabling then
        let s1 := handleStartError s e
        some { s1 with chains := dropChain s1.chains cid }
      else none
  | Ev.roomDisconnected =>
      let s1 := { s with roomState := RoomState.disconnected }
      if s.handlersOn then some (onDisconnected s1) else some s1
  | Ev.connStateChanged st =>
      let s1 := { s with roomState := st }
      if s.handlersOn then some (onConnectionStateChanged st s1) else some s1

/-- Run a list of environment events from a state, skipping events
that are not enabled. -/
def run (cfg : AppConfig) (s : Sys) (evs : List Ev) : Sys :=
  evs.foldl (fun st e => (step cfg st e).getD st) s

/-- Events at which a startup chain's connected-wait can resolve (or
be skipped because the room is already connected); microphone
enablement begins only at such an event. -/
def releaseEvent : Ev → Bool
  | Ev.roomConnected => true
  | Ev.connectResolve _ => true
  | Ev.timerFire _ => true
  | _ => false

/-- A concrete configuration. -/
def cfg0 : AppConfig :=
  { agentName := none, sandboxId := none, isPreConnectBufferEnabled := false }

/-- Concrete connection details returned by a successful fetch. -/
def d0 : ConnectionDetails :=
  { serverUrl := "wss://example", roomName := "room", participantToken := "tok" }

/-- A concrete non-timeout error. -/
def e0 : ErrObj := { name := "ConnectionError", message := "could not connect" }

/-- A concrete timeout-flavored error. -/
def eT : ErrObj := { name := "ConnectionError", message := "connect timeout reached" }

/-- State after one `startSession` call from idle: fetch issued,
chain 0 awaiting credentials, room still disconnected. -/
def started0 : Sys := run cfg0 initSys [Ev.callStart]

/-- State after the fetch of chain 0 succeeded: `connect` issued. -/
def fetched0 : Sys :=
  run cfg0 initSys [Ev.callStart, Ev.fetchResolve 0 (HttpResp.success d0)]

/-- State after `connect` resolved while the room was not yet
`connected`: chain 0 inside the connected-wait, listener registered,
5000 ms timer armed. -/
def wait0 : Sys :=
  run cfg0 initSys
    [Ev.callStart, Ev.fetchResolve 0 (HttpResp.success d0), Ev.connectResolve 0]

/-- `wait0` after the `Connected` room event fired. -/
def wait0Connected : Sys := (step cfg0 wait0 Ev.roomConnected).getD wait0

/-- `wait0` after 5000 ms elapsed with no `Connected` event. -/
def wait0At5000 : Sys := (step cfg0 wait0 (Ev.advance 5000)).getD wait0

/-- `wait0At5000` after the fallback timer fired. -/
def wait0Fired : Sys := (step cfg0 wait0At5000 (Ev.timerFire 0)).getD wait0At5000

/-- A disposed instance with chain 0 still awaiting `connect`. -/
def sAborted : Sys :=
  { initSys with
      aborted := true
      handlersOn := false
      isSessionActive := true
      roomState := RoomState.connecting
      chains := [(0, Phase.connecting)] }

/-- `sAborted` after its `connect` rejection was delivered. -/
def sAbortedAfter : Sys := { sAborted with chains := [] }

/-- A state with chain 0 awaiting `connect` (not yet disposed). -/
def sPreDispose : Sys :=
  { initSys with
      isSessionActive := true
      roomState := RoomState.connecting
      chains := [(0, Phase.connecting)]
      fetchCalls := 1
      connectCalls := 1 }

/-- `sPreDispose` after the effect cleanups ran. -/
def sDisposed : Sys := (step cfg0 sPreDispose Ev.dispose).getD sPreDispose

/-- `sDisposed` after the pending `connect` rejection was delivered. -/
def sDisposedAfterReject : Sys :=
  (step cfg0 sDisposed (Ev.connectReject 0 e0)).getD sDisposed

/-- State after the credential endpoint answered chain 0 with HTTP
500 and body "server error". -/
def sErr500 : Sys :=
  run cfg0 initSys [Ev.callStart, Ev.fetchResolve 0 (HttpResp.failure 500 "server error")]

/-- A fully started session after `endSession`: `isSessionActive`
false but the room still connected. -/
def stopThenConnected : Sys :=
  run cfg0 initSys
    [Ev.callStart, Ev.fetchResolve 0 (HttpResp.success d0), Ev.roomConnected,
     Ev.connectResolve 0, Ev.micResolve 0, Ev.callStop]

/-- An active, connected, mounted state used for event-handler facts. -/
def sLive : Sys :=
  { initSys with isSessionActive := true, roomState := RoomState.connected }

/-- `sLive` after a `reconnecting` connection-state-change. -/
def sLiveReconnecting : Sys :=
  (step cfg0 sLive (Ev.connStateChanged RoomState.reconnecting)).getD sLive

/-- `sLive` after a `disconnected` connection-state-change. -/
def sLiveDisconnected : Sys :=
  (step cfg0 sLive (Ev.connStateChanged RoomState.disconnected)).getD sLive

/-- C9: `stop()` (`endSession`) synchronously sets `isActive` to false
and performs no other effect: it does not call `disconnect`, and the
transport's connection state, timers, listeners, chains, counters and
toasts are all left unchanged. -/
theorem c9_endSession_only_clears_isActive (cfg : AppConfig) (s : Sys) :
    step cfg s Ev.callStop = some { s with isSessionActive := false } := rfl

/-- C10: calling `start()` while the client's connection state is
anything other than `disconnected` has setting `isActive` to true as
its only effect: no credential fetch, no connect, no new chain, and
every other component of the state is unchanged. -/
theorem c10_startSession_noop_when_not_disconnected (cfg : AppConfig) (s : Sys)
    (h : ¬ s.roomState = RoomState.disconnected) :
    step cfg s Ev.callStart = some { s with isSessionActive := true } := by
  simp [step, startSession, h]

/-- C10 witness: after a full successful startup followed by `stop()`
the room is still connected, and `start()` from that state only flips
`isActive` back to true. -/
theorem c10_witness :
    step cfg0 stopThenConnected Ev.callStart =
      some { stopThenConnected with isSessionActive := true } :=
  c10_startSession_noop_when_not_disconnected cfg0 stopThenConnected (by decide)

/-- C7: while the handlers are subscribed, a `reconnecting`
connection-state-change leaves `isActive` unchanged and a
`disconnected` one sets it to false. -/
theorem c7_connStateChanged_isActive (cfg : AppConfig) (s sR sD : Sys)
    (h : s.handlersOn = true)
    (hR : step cfg s (Ev.connStateChanged RoomState.reconnecting) = some sR)
    (hD : step cfg s (Ev.connStateChanged RoomState.disconnected) = some sD) :
    sR.isSessionActive = s.isSessionActive ∧ sD.isSessionActive = false := by
  simp [step, h, onConnectionStateChanged] at hR hD
  constructor
  · rw [← hR]
  · rw [← hD]

/-- C7 witness: from a live connected session, a `reconnecting`
transition keeps `isActive` true and a `disconnected` transition
clears it. -/
theorem c7_witness :
    sLiveReconnecting.isSessionActive = sLive.isSessionActive ∧
    sLiveDisconnected.isSessionActive = false :=
  c7_connStateChanged_isActive cfg0 sLive sLiveReconnecting sLiveDisconnected
    (by decide) (by decide) (by decide)

/-- C1 counterexample: after one `start()` from idle the controller is
in the Starting state (`isActive` true, chain 0 awaiting its
credential fetch, so a startup chain is in flight), yet a second
`start()` issues a second credential fetch and launches a second
chain, because the guard `room.state === 'disconnected'` still holds
while the fetch is pending. -/
theorem c1_counterexample :
    started0.isSessionActive = true ∧
    started0.chains = [(0, Phase.fetching)] ∧
    started0.fetchCalls = 1 ∧
    (run cfg0 initSys [Ev.callStart, Ev.callStart]).fetchCalls = 2 ∧
    (run cfg0 initSys [Ev.callStart, Ev.callStart]).chains =
      [(0, Phase.fetching), (1, Phase.fetching)] := by
  decide

/-- C1 amended: a second `start()` issues no second credential fetch,
no second `connect`, and launches no new chain only once the client's
connection state has left `disconnected` (i.e. from the moment
`connect` is issued onward); in that case its only effect is keeping
`isActive` true. -/
theorem c1_amended_no_second_attempt (cfg : AppConfig) (s s2 : Sys)
    (h : ¬ s.roomState = RoomState.disconnected)
    (h2 : step cfg s Ev.callStart = some s2) :
    s2.fetchCalls = s.fetchCalls ∧ s2.connectCalls = s.connectCalls ∧
    s2.chains = s.chains ∧ s2.isSessionActive = true := by
  simp [step, startSession, h] at h2
  rw [← h2]
  exact ⟨rfl, rfl, rfl, rfl⟩

/-- C1 witness: from the state where chain 0's `connect` is in
flight, a further `start()` adds no fetch, no connect and no chain. -/
theorem c1_witness :
    (startSession fetched0).fetchCalls = fetched0.fetchCalls ∧
    (startSession fetched0).connectCalls = fetched0.connectCalls ∧
    (startSession fetched0).chains = fetched0.chains ∧
    (startSession fetched0).isSessionActive = true :=
  c1_amended_no_second_attempt cfg0 fetched0 (startSession fetched0)
    (by decide) rfl

/-- C2 counterexample: disposal during the credential fetch sets the
AbortFlag and disconnects the room, yet when the fetch resolves the
post-fetch continuation does not check the flag: it still issues
`connect`, moving the room back to `connecting` after teardown. -/
theorem c2_counterexample :
    (run cfg0 initSys [Ev.callStart, Ev.dispose]).aborted = true ∧
    (run cfg0 initSys [Ev.callStart, Ev.dispose]).roomState = RoomState.disconnected ∧
    (run cfg0 initSys [Ev.callStart, Ev.dispose]).connectCalls = 0 ∧
    (run cfg0 initSys
        [Ev.callStart, Ev.dispose, Ev.fetchResolve 0 (HttpResp.success d0)]).aborted = true ∧
    (run cfg0 initSys
        [Ev.callStart, Ev.dispose, Ev.fetchResolve 0 (HttpResp.success d0)]).connectCalls = 1 ∧
    (run cfg0 initSys
        [Ev.callStart, Ev.dispose, Ev.fetchResolve 0 (HttpResp.success d0)]).roomState =
      RoomState.connecting := by
  decide

/-- C2 amended: of the startup chain's continuations only the error
handler checks the AbortFlag; once the flag is set the error handler
is the identity, so no error of a pre-disposal chain mutates
`isActive`, reaches the Notification Sink, or touches the room — but
the intermediate continuations do not check the flag and still run
(in particular a fetch resolving after disposal still issues
`connect`). -/
theorem c2_amended_error_handler_checks_flag (cfg : AppConfig) (s s2 : Sys)
    (cid : Nat) (e : ErrObj)
    (h : s.aborted = true)
    (h2 : step cfg s (Ev.connectReject cid e) = some s2) :
    handleStartError s e = s ∧
    s2.toasts = s.toasts ∧ s2.isSessionActive = s.isSessionActive ∧
    s2.roomState = s.roomState := by
  have habort : handleStartError s e = s := by simp [handleStartError, h]
  by_cases hc : s.chains.lookup cid = some Phase.connecting
  · simp [step, hc, habort] at h2
    rw [← h2]
    exact ⟨habort, rfl, rfl, rfl⟩
  · simp [step, hc] at h2

/-- C2 witness: in a disposed state with a rejected `connect`, the
error handler leaves the state untouched and the delivered rejection
changes neither the toasts, nor `isActive`, nor the room state. -/
theorem c2_witness :
    handleStartError sAborted e0 = sAborted ∧
    sAbortedAfter.toasts = sAborted.toasts ∧
    sAbortedAfter.isSessionActive = sAborted.isSessionActive ∧
    sAbortedAfter.roomState = sAborted.roomState :=
  c2_amended_error_handler_checks_flag cfg0 sAborted sAbortedAfter 0 e0
    (by decide) (by decide)

/-- C4: when the controller is disposed while chain `cid`'s `connect`
is still in flight, the disposal itself sets the AbortFlag and
disconnects the transport, and the chain's later `connect` rejection
is suppressed: it adds no toast, does not touch `isActive`, and the
room stays disconnected. -/
theorem c4_dispose_suppresses_inflight_error (cfg : AppConfig) (s s1 s2 : Sys)
    (cid : Nat) (e : ErrObj)
    (hch : s.chains.lookup cid = some Phase.connecting)
    (hd : step cfg s Ev.dispose = some s1)
    (hc : step cfg s1 (Ev.connectReject cid e) = some s2) :
    s1.aborted = true ∧
    s1.roomState = RoomState.disconnected ∧
    s1.disconnectCalls = s.disconnectCalls + 1 ∧
    s2.toasts = s1.toasts ∧
    s2.isSessionActive = s1.isSessionActive ∧
    s2.roomState = RoomState.disconnected := by
  simp only [step, Option.some.injEq] at hd
  subst hd
  simp [step, dispose, hch, handleStartError] at hc
  rw [← hc]
  simp [dispose]

/-- C4 witness: disposing while chain 0 awaits `connect` disconnects
the room and the subsequent rejection is fully suppressed. -/
theorem c4_witness :
    sDisposed.aborted = true ∧
    sDisposed.roomState = RoomState.disconnected ∧
    sDisposed.disconnectCalls = sPreDispose.disconnectCalls + 1 ∧
    sDisposedAfterReject.toasts = sDisposed.toasts ∧
    sDisposedAfterReject.isSessionActive = sDisposed.isSessionActive ∧
    sDisposedAfterReject.roomState = RoomState.disconnected :=
  c4_dispose_suppresses_inflight_error cfg0 sPreDispose sDisposed
    sDisposedAfterReject 0 e0 (by decide) (by decide) (by decide)

/-- C5: when the credential endpoint answers a fetching chain with a
non-2xx response (HTTP 500, body "server error") and the controller is
not aborted, the startup fails before `connect`: `isActive` returns to
false, `connectCalls` is unchanged, the room stays disconnected, and
exactly one toast is forwarded whose description contains the upstream
body text. -/
theorem c5_non2xx_fails_before_connect (cfg : AppConfig) (s s2 : Sys) (cid : Nat)
    (hna : s.aborted = false)
    (hch : s.chains.lookup cid = some Phase.fetching)
    (hrs : s.roomState = RoomState.disconnected)
    (h2 : step cfg s (Ev.fetchResolve cid (HttpResp.failure 500 "server error")) = some s2) :
    s2.isSessionActive = false ∧
    s2.connectCalls = s.connectCalls ∧
    s2.roomState = RoomState.disconnected ∧
    s2.toasts = s.toasts ++
      [{ title := "There was an error connecting to the agent"
         description := "Error: Failed to get connection details: server error" }] ∧
    strIncludes "Error: Failed to get connection details: server error" "server error" = true := by
  have hdesc : "Error" ++ ": " ++ displayedErrorMessage
      { name := "Error", message := "Failed to get connection details: server error" } =
      "Error: Failed to get connection details: server error" := by decide
  simp [step, hch, tokenSourceFetch] at h2
  rw [← h2]
  simp [handleStartError, hna, hrs, hdesc]
  decide

/-- C5 witness: the concrete HTTP 500 scenario from the starting
state: session back to idle, no connect, one toast carrying the
upstream body text. -/
theorem c5_witness :
    sErr500.isSessionActive = false ∧
    sErr500.connectCalls = started0.connectCalls ∧
    sErr500.roomState = RoomState.disconnected ∧
    sErr500.toasts = started0.toasts ++
      [{ title := "There was an error connecting to the agent"
         description := "Error: Failed to get connection details: server error" }] ∧
    strIncludes "Error: Failed to get connection details: server error" "server error" = true :=
  c5_non2xx_fails_before_connect cfg0 started0 sErr500 0
    (by decide) (by decide) (by decide) (by decide)

/-- C6: on any startup-chain error when not aborted the catch handler
sets `isActive` false, leaves or forces the room to `disconnected`
(calling `disconnect` exactly when it was not already disconnected),
and forwards exactly one toast; an error whose message contains
"timeout" or "signal" has its displayed description rewritten into the
server-configuration guidance message. -/
theorem c6_error_path (s sC : Sys) (e et : ErrObj)
    (ha : s.aborted = false) (hs : s.roomState = RoomState.disconnected)
    (hCa : sC.aborted = false) (hC : ¬ sC.roomState = RoomState.disconnected)
    (ht : strIncludes et.message "timeout" = true ∨ strIncludes et.message "signal" = true) :
    (handleStartError s e).isSessionActive = false ∧
    (handleStartError s e).roomState = RoomState.disconnected ∧
    (handleStartError s e).disconnectCalls = s.disconnectCalls ∧
    (handleStartError s e).toasts = s.toasts ++
      [{ title := "There was an error connecting to the agent"
         description := e.name ++ ": " ++ displayedErrorMessage e }] ∧
    (handleStartError sC e).isSessionActive = false ∧
    (handleStartError sC e).roomState = RoomState.disconnected ∧
    (handleStartError sC e).disconnectCalls = sC.disconnectCalls + 1 ∧
    (handleStartError sC e).toasts = sC.toasts ++
      [{ title := "There was an error connecting to the agent"
         description := e.name ++ ": " ++ displayedErrorMessage e }] ∧
    displayedErrorMessage et = timeoutGuidance := by
  have hne : ¬ et.message = "" := by
    intro hemp
    rw [hemp] at ht
    rcases ht with h1 | h1 <;> exact absurd h1 (by decide)
  have hcond : (strIncludes et.message "timeout" || strIncludes et.message "signal") = true := by
    rcases ht with h1 | h1 <;> simp [h1]
  refine ⟨?_, ?_, ?_, ?_, ?_, ?_, ?_, ?_, ?_⟩ <;>
    simp [handleStartError, displayedErrorMessage, ha, hs, hCa, hC, hne, hcond]

/-- C6 witness: a non-timeout error from the idle-room state and from
a connected state, plus a timeout-flavored error whose description is
rewritten into the guidance message. -/
theorem c6_witness :
    (handleStartError initSys e0).isSessionActive = false ∧
    (handleStartError initSys e0).roomState = RoomState.disconnected ∧
    (handleStartError initSys e0).disconnectCalls = initSys.disconnectCalls ∧
    (handleStartError initSys e0).toasts = initSys.toasts ++
      [{ title := "There was an error connecting to the agent"
         description := e0.name ++ ": " ++ displayedErrorMessage e0 }] ∧
    (handleStartError sLive e0).isSessionActive = false ∧
    (handleStartError sLive e0).roomState = RoomState.disconnected ∧
    (handleStartError sLive e0).disconnectCalls = sLive.disconnectCalls + 1 ∧
    (handleStartError sLive e0).toasts = sLive.toasts ++
      [{ title := "There was an error connecting to the agent"
         description := e0.name ++ ": " ++ displayedErrorMessage e0 }] ∧
    displayedErrorMessage eT = timeoutGuidance :=
  c6_error_path initSys sLive e0 eT (by decide) (by decide) (by decide)
    (by decide) (Or.inl (by decide))

/-- The catch handler never records a microphone-enable call. -/
theorem handleStartError_micCalls (s : Sys) (e : ErrObj) :
    (handleStartError s e).micCalls = s.micCalls := by
  unfold handleStartError
  split
  · rfl
  · split <;> rfl

/-- A step that is not a release event (`roomConnected`,
`connectResolve`, `timerFire`) leaves the recorded microphone-enable
calls unchanged. -/
theorem step_micCalls_of_not_release (cfg : AppConfig) (s s2 : Sys) (e : Ev)
    (hw : step cfg s e = some s2) (hrel : releaseEvent e = false) :
    s2.micCalls = s.micCalls := by
  cases e with
  | callStart =>
      simp only [step, Option.some.injEq] at hw
      subst hw
      unfold startSession
      split <;> rfl
  | callStop =>
      simp only [step, Option.some.injEq] at hw
      subst hw
      rfl
  | dispose =>
      simp only [step, Option.some.injEq] at hw
      subst hw
      rfl
  | advance k =>
      simp only [step, Option.some.injEq] at hw
      subst hw
      rfl
  | fetchResolve cid resp =>
      simp only [step] at hw
      split at hw
      · split at hw
        · simp only [Option.some.injEq] at hw
          subst hw
          rfl
        · simp only [Option.some.injEq] at hw
          subst hw
          exact handleStartError_micCalls s _
      · exact absurd hw (by simp)
  | connectResolve cid =>
      simp [releaseEvent] at hrel
  | connectReject cid e =>
      simp only [step] at hw
      split at hw
      · simp only [Option.some.injEq] at hw
        subst hw
        exact handleStartError_micCalls s _
      · exact absurd hw (by simp)
  | roomConnected =>
      simp [releaseEvent] at hrel
  | timerFire cid =>
      simp [releaseEvent] at hrel
  | micResolve cid =>
      simp only [step] at hw
      split at hw
      · simp only [Option.some.injEq] at hw
        subst hw
        rfl
      · exact absurd hw (by simp)
  | micReject cid e =>
      simp only [step] at hw
      split at hw
      · simp only [Option.some.injEq] at hw
        subst hw
        exact handleStartError_micCalls s _
      · exact absurd hw (by simp)
  | roomDisconnected =>
      simp only [step] at hw
      split at hw <;>
        · simp only [Option.some.injEq] at hw
          subst hw
          rfl
  | connStateChanged st =>
      simp only [step] at hw
      split at hw
      · simp only [Option.some.injEq] at hw
        subst hw
        unfold onConnectionStateChanged
        split
        · split <;> rfl
        · rfl
      · simp only [Option.some.injEq] at hw
        subst hw
        rfl

/-- C3 counterexample: from the waiting state (`wait0`: chain 0 inside
the connected-wait, listener registered, 5000 ms timer armed), the
`Connected` event fires first: the listener is removed, the wait is
released and microphone enablement begins — but the fallback timer is
NOT unregistered: it stays armed, so the two are not symmetric and
"whichever fires first unregisters the other" fails for the
listener-first order. -/
theorem c3_counterexample :
    wait0.chains = [(0, Phase.waiting)] ∧
    wait0.connectedListeners = [0] ∧
    wait0.timers = [(0, 5000)] ∧
    wait0Connected.connectedListeners = [] ∧
    wait0Connected.chains = [(0, Phase.enabling)] ∧
    wait0Connected.micCalls = [false] ∧
    wait0Connected.timers = [(0, 5000)] := by
  decide

/-- C3 amended: in the post-connect wait, whichever of the one-shot
connected listener and the 5000 ms fallback timer fires first releases
the wait and starts capture enablement with the configured
pre-connect-buffer flag; the timer, when it fires, also unregisters
the listener, but the listener, when it fires, removes only itself and
leaves the timer armed (the stale timer later fires as a no-op);
capture enablement begins only at such a release event. -/
theorem c3_amended_wait_release (cfg : AppConfig) (s sA t tB w w2 : Sys)
    (cid cidT : Nat) (dT : Nat) (ev : Ev)
    (hs1 : s.chains.lookup cid = some Phase.waiting)
    (hs2 : s.connectedListeners = [cid])
    (hsA : step cfg s Ev.roomConnected = some sA)
    (ht1 : t.chains.lookup cidT = some Phase.waiting)
    (ht2 : t.timers.lookup cidT = some dT)
    (ht3 : dT ≤ t.now)
    (htB : step cfg t (Ev.timerFire cidT) = some tB)
    (hw : step cfg w ev = some w2)
    (hne : ¬ w.micCalls = w2.micCalls) :
    sA.connectedListeners = [] ∧
    sA.chains = setPhase s.chains cid Phase.enabling ∧
    sA.micCalls = s.micCalls ++ [cfg.isPreConnectBufferEnabled] ∧
    sA.timers = s.timers ∧
    tB.connectedListeners = dropListener t.connectedListeners cidT ∧
    tB.timers = dropTimer t.timers cidT ∧
    tB.chains = setPhase t.chains cidT Phase.enabling ∧
    tB.micCalls = t.micCalls ++ [cfg.isPreConnectBufferEnabled] ∧
    releaseEvent ev = true := by
  simp only [step, Option.some.injEq] at hsA
  rw [hs2] at hsA
  simp only [fireListeners, List.foldl] at hsA
  simp only [hs1, if_true] at hsA
  simp only [enableMic] at hsA
  rw [← hsA]
  simp only [step, ht2] at htB
  rw [if_pos ht3] at htB
  simp only [ht1, if_true] at htB
  simp only [enableMic, Option.some.injEq] at htB
  rw [← htB]
  refine ⟨rfl, rfl, rfl, rfl, rfl, rfl, rfl, rfl, ?_⟩
  by_cases hrel : releaseEvent ev = true
  · exact hrel
  · exact absurd (step_micCalls_of_not_release cfg w w2 ev hw
      (by simpa using hrel)).symm hne

/-- C3 witness: the connected-first order from `wait0` and the
timer-first order from `wait0At5000`, with the growth hypothesis
instantiated by the connected-first step itself. -/
theorem c3_witness :
    wait0Connected.connectedListeners = [] ∧
    wait0Connected.chains = setPhase wait0.chains 0 Phase.enabling ∧
    wait0Connected.micCalls = wait0.micCalls ++ [cfg0.isPreConnectBufferEnabled] ∧
    wait0Connected.timers = wait0.timers ∧
    wait0Fired.connectedListeners = dropListener wait0At5000.connectedListeners 0 ∧
    wait0Fired.timers = dropTimer wait0At5000.timers 0 ∧
    wait0Fired.chains = setPhase wait0At5000.chains 0 Phase.enabling ∧
    wait0Fired.micCalls = wait0At5000.micCalls ++ [cfg0.isPreConnectBufferEnabled] ∧
    releaseEvent Ev.roomConnected = true :=
  c3_amended_wait_release cfg0 wait0 wait0Connected wait0At5000 wait0Fired
    wait0 wait0Connected 0 0 5000 Ev.roomConnected
    (by decide) (by decide) (by decide) (by decide) (by decide) (by decide)
    (by decide) (by decide) (by decide)

/-- C8: when `connect` has resolved but the room is not yet
`connected`, the wait registers the listener and arms a timer whose
deadline is exactly 5000 ms after registration and starts no
enablement yet; the timer cannot fire before its deadline (the step is
disabled); and once the deadline is reached, firing it removes the
one-shot listener (no leak), removes the timer, releases the wait and
begins capture enablement. -/
theorem c8_fallback_timer (cfg : AppConfig) (s sW t u u2 : Sys)
    (cid cidT cidU dT dU : Nat)
    (h1 : s.chains.lookup cid = some Phase.connecting)
    (h2 : ¬ s.roomState = RoomState.connected)
    (hW : step cfg s (Ev.connectResolve cid) = some sW)
    (ht2 : t.timers.lookup cidT = some dT)
    (ht3 : t.now < dT)
    (hu1 : u.chains.lookup cidU = some Phase.waiting)
    (hu2 : u.timers.lookup cidU = some dU)
    (hu3 : dU ≤ u.now)
    (hu4 : step cfg u (Ev.timerFire cidU) = some u2) :
    sW.timers = s.timers ++ [(cid, s.now + 5000)] ∧
    sW.connectedListeners = s.connectedListeners ++ [cid] ∧
    sW.chains = setPhase s.chains cid Phase.waiting ∧
    sW.micCalls = s.micCalls ∧
    step cfg t (Ev.timerFire cidT) = none ∧
    u2.connectedListeners = dropListener u.connectedListeners cidU ∧
    u2.timers = dropTimer u.timers cidU ∧
    u2.chains = setPhase u.chains cidU Phase.enabling ∧
    u2.micCalls = u.micCalls ++ [cfg.isPreConnectBufferEnabled] := by
  simp only [step, h1, h2, if_true, if_false] at hW
  simp only [Option.some.injEq] at hW
  rw [← hW]
  simp only [step, hu2] at hu4
  rw [if_pos hu3] at hu4
  simp only [hu1, if_true] at hu4
  simp only [enableMic, Option.some.injEq] at hu4
  rw [← hu4]
  refine ⟨rfl, rfl, rfl, rfl, ?_, rfl, rfl, rfl, rfl⟩
  simp only [step, ht2]
  rw [if_neg (not_le.mpr ht3)]

/-- C8 witness: the concrete never-connected run: registration at time
0 arms the timer for 5000; firing at time 0 is disabled; after
advancing to 5000 the timer fires, unregisters the listener and starts
microphone enablement. -/
theorem c8_witness :
    wait0.timers = fetched0.timers ++ [(0, fetched0.now + 5000)] ∧
    wait0.connectedListeners = fetched0.connectedListeners ++ [0] ∧
    wait0.chains = setPhase fetched0.chains 0 Phase.waiting ∧
    wait0.micCalls = fetched0.micCalls ∧
    step cfg0 wait0 (Ev.timerFire 0) = none ∧
    wait0Fired.connectedListeners = dropListener wait0At5000.connectedListeners 0 ∧
    wait0Fired.timers = dropTimer wait0At5000.timers 0 ∧
    wait0Fired.chains = setPhase wait0At5000.chains 0 Phase.enabling ∧
    wait0Fired.micCalls = wait0At5000.micCalls ++ [cfg0.isPreConnectBufferEnabled] :=
  c8_fallback_timer cfg0 fetched0 wait0 wait0 wait0At5000 wait0Fired
    0 0 0 5000 5000
    (by decide) (by decide) (by decide) (by decide) (by decide)
    (by decide) (by decide) (by decide) (by decide)

end UseRoom
